import Mathlib

set_option autoImplicit false

/-!
Shallow embedding of the security-testing core of the form-monkey repository
(src/mode_sql_inject.py, src/mode_xss.py, src/mode_csrf.py, src/mode_headers.py,
src/mode_comprehensive.py) together with proofs about the spec's claims.

The browser actor (Selenium / undetected_chromedriver), the HTTP fetcher
(requests) and the report renderer are external collaborators: they are
modelled as oracle parameters (environment functions giving the page source,
alert dialogs, cookies, response headers and redirect outcome observed at each
step).  Everything with decision logic is translated from the Python source,
statement by statement.
-/

namespace FormMonkey

/-! ### Python string primitives

Python `in` on strings, `str.replace` with a single-character needle,
`str.lower` / `str.upper` (inputs here are ASCII), `str.strip`, `int(...)`
and `str.split` are modelled over `List Char`. -/

/-- listLeads needle hay is true when needle occurs at the very start of hay. -/
def listLeads : List Char → List Char → Bool
  | [], _ => true
  | _ :: _, [] => false
  | a :: as, b :: bs => a == b && listLeads as bs

/-- listHasSub needle hay is true when needle occurs contiguously anywhere in
hay; this is Python's `needle in hay` on strings. -/
def listHasSub (needle : List Char) : List Char → Bool
  | [] => needle.isEmpty
  | b :: bs => listLeads needle (b :: bs) || listHasSub needle bs

/-- hasSub hay needle models the Python expression `needle in hay`. -/
def hasSub (hay needle : String) : Bool :=
  listHasSub needle.data hay.data

/-- Replace every occurrence of the character c by the character list rep;
models Python `s.replace(old, new)` for a one-character `old` (one-character
needles cannot overlap, so left-to-right replacement is pointwise). -/
def charReplace (c : Char) (rep : List Char) : List Char → List Char
  | [] => []
  | a :: as => (if a == c then rep else [a]) ++ charReplace c rep as

/-- Models `payload.replace("<", "&lt;").replace(">", "&gt;")` from
src/mode_xss.py (detect_xss_reflection's notion of an HTML-entity-escaped
string). -/
def escapeLtGt (s : String) : String :=
  ⟨charReplace '>' "&gt;".data (charReplace '<' "&lt;".data s.data)⟩

/-- Python `str.lower` (all strings handled by the probed code are ASCII,
where `Char.toLower` agrees with Python). -/
def pyLower (s : String) : String :=
  ⟨s.data.map Char.toLower⟩

/-- Python `str.upper` on ASCII strings. -/
def pyUpper (s : String) : String :=
  ⟨s.data.map Char.toUpper⟩

/-- Python `str.strip()`: drop whitespace from both ends. -/
def pyStrip (s : String) : String :=
  ⟨(((s.data.dropWhile Char.isWhitespace).reverse.dropWhile Char.isWhitespace).reverse)⟩

/-- Value of a nonempty all-digit character list, base 10. -/
def digitsVal (cs : List Char) : Option Nat :=
  if !cs.isEmpty && cs.all Char.isDigit then
    some (cs.foldl (fun n c => n * 10 + (c.toNat - 48)) 0)
  else
    none

/-- Python `int(s)` on a decimal literal: strip whitespace, optional sign,
then digits; `none` models the ValueError branch. -/
def pyInt (s : String) : Option Int :=
  match (pyStrip s).data with
  | '-' :: rest => (digitsVal rest).map (fun n => -(n : Int))
  | '+' :: rest => (digitsVal rest).map (fun n => (n : Int))
  | cs => (digitsVal cs).map (fun n => (n : Int))

/-- Fuel-driven worker for splitBySub (fuel is the length of the string, so
it never runs out; structural recursion keeps the function kernel-reducible). -/
def splitBySubFuel (sep : List Char) : Nat → List Char → List (List Char)
  | 0, s => [s]
  | _ + 1, [] => [[]]
  | fuel + 1, a :: as =>
    if listLeads sep (a :: as) && !sep.isEmpty then
      [] :: splitBySubFuel sep fuel ((a :: as).drop sep.length)
    else
      match splitBySubFuel sep fuel as with
      | [] => [[a]]
      | seg :: rest => (a :: seg) :: rest

/-- Python `s.split(sep)` for a nonempty separator: non-overlapping
left-to-right splitting. -/
def splitBySub (sep s : List Char) : List (List Char) :=
  splitBySubFuel sep s.length s

/-! ### CSRF analyzer (src/mode_csrf.py)

Cookies come from the browser actor's get_cookies(); the referrer policy from
an execute_script call whose failure fallback is the empty string.  Both are
parameters of the embedding.  Form details are the output of
extract_form_details (one record per form element; the method is already
lower-cased there by `form.get('method', 'get').lower()`); the BeautifulSoup
HTML parsing itself is an external collaborator, so the embedding starts from
the extracted form list.  The inputs list of a form only feeds the
has_csrf_token flag, which is carried directly. -/

/-- One browser cookie as returned by get_cookies(). -/
structure Cookie where
  secure : Bool
  httpOnly : Bool
  sameSite : Option String
deriving DecidableEq

/-- Details of one extracted form (extract_form_details). -/
structure FormDetails where
  action : String := ""
  method : String := "get"
  id : String := ""
  name : String := ""
  has_csrf_token : Bool := false
deriving DecidableEq

/-- Result of check_for_csrf_protection (the protection dict plus the level
added at the end of the function). -/
structure Protection where
  has_csrf_token : Bool
  has_samesite_cookie : Bool
  has_secure_cookie : Bool
  has_httponly_cookie : Bool
  has_referer_protection : Bool
  score : Nat
  level : String
deriving DecidableEq

/-- Body of the cookie loop in check_for_csrf_protection: one iteration for
one cookie (each check fires per cookie, adding its points every time). -/
def cookieStep (p : Protection) (c : Cookie) : Protection :=
  let p := if c.secure then
      { p with has_secure_cookie := true, score := p.score + 1 } else p
  let p := if c.httpOnly then
      { p with has_httponly_cookie := true, score := p.score + 1 } else p
  if c.sameSite == some "Strict" || c.sameSite == some "Lax" then
    { p with has_samesite_cookie := true, score := p.score + 2 } else p

/-- Straight translation of check_for_csrf_protection: the cookie loop adds
points per cookie, then the referrer-policy bonus, then the token bonus, then
the level classification. -/
def check_for_csrf_protection (form : FormDetails) (cookies : List Cookie)
    (refererPolicy : String) : Protection :=
  let p0 : Protection :=
    { has_csrf_token := form.has_csrf_token, has_samesite_cookie := false,
      has_secure_cookie := false, has_httponly_cookie := false,
      has_referer_protection := false, score := 0, level := "" }
  let p1 := cookies.foldl cookieStep p0
  let p2 := if refererPolicy == "same-origin" || refererPolicy == "strict-origin"
      || refererPolicy == "strict-origin-when-cross-origin" then
    { p1 with has_referer_protection := true, score := p1.score + 1 } else p1
  let p3 := if p2.has_csrf_token then { p2 with score := p2.score + 3 } else p2
  { p3 with level :=
      if p3.score ≥ 4 then "strong" else if p3.score ≥ 2 then "medium" else "weak" }

/-- Result dict of test_csrf_vulnerability. -/
structure CsrfTestResult where
  form_id : String
  form_name : String
  method : String
  action : String
  vulnerable : Bool
  severity : String
  details : String
  protection : Protection
deriving DecidableEq

/-- Translation of test_csrf_vulnerability: classify the form using the
protection level (the initial result dict carries severity 'low', overwritten
in the weak and medium branches). -/
def test_csrf_vulnerability (form : FormDetails) (cookies : List Cookie)
    (referrerPolicy : String) : CsrfTestResult :=
  let protection := check_for_csrf_protection form cookies referrerPolicy
  if protection.level == "weak" then
    { form_id := form.id, form_name := form.name, method := form.method,
      action := form.action, vulnerable := true, severity := "high",
      details := "Form has weak or no CSRF protection.", protection := protection }
  else if protection.level == "medium" then
    { form_id := form.id, form_name := form.name, method := form.method,
      action := form.action, vulnerable := true, severity := "medium",
      details := "Form has some CSRF protection, but it could be improved.",
      protection := protection }
  else
    { form_id := form.id, form_name := form.name, method := form.method,
      action := form.action, vulnerable := false, severity := "low",
      details := "Form has strong CSRF protection.", protection := protection }

/-- One entry of the vulnerabilities list built by run_csrf_mode. -/
structure CsrfVuln where
  form_id : String
  form_name : String
  type : String
  severity : String
  details : String
  protection : Protection
deriving DecidableEq

/-- Body of the form loop of run_csrf_mode: forms_tested is incremented for
every form, then GET forms are skipped, other forms are tested and vulnerable
ones recorded. -/
def csrfFormStep (cookies : List Cookie) (referrerPolicy : String)
    (acc : Nat × List CsrfVuln) (form : FormDetails) : Nat × List CsrfVuln :=
  let acc := (acc.1 + 1, acc.2)
  if form.method == "get" then acc
  else
    let t := test_csrf_vulnerability form cookies referrerPolicy
    let v : CsrfVuln :=
      { form_id := t.form_id, form_name := t.form_name, type := "csrf",
        severity := t.severity, details := t.details, protection := t.protection }
    if t.vulnerable then (acc.1, acc.2 ++ [v]) else acc

/-- The form loop of run_csrf_mode. -/
def csrfTestForms (cookies : List Cookie) (referrerPolicy : String)
    (forms : List FormDetails) : Nat × List CsrfVuln :=
  forms.foldl (csrfFormStep cookies referrerPolicy) (0, [])

/-- The vulnerability records one form contributes: none for a GET form, and
none for a form whose protection is strong. -/
def csrfVulnsOfForm (cookies : List Cookie) (referrerPolicy : String)
    (form : FormDetails) : List CsrfVuln :=
  if form.method == "get" then []
  else
    let t := test_csrf_vulnerability form cookies referrerPolicy
    let v : CsrfVuln :=
      { form_id := t.form_id, form_name := t.form_name, type := "csrf",
        severity := t.severity, details := t.details, protection := t.protection }
    if t.vulnerable then [v] else []

/-- Results dict of run_csrf_mode (the fields the claims are about; target_url,
test_type, start_time and duration are carried by the caller / clock and are
omitted).  On the zero-forms early return the `vulnerable` key is never set,
hence the Option. -/
structure CsrfRunResults where
  forms_tested : Nat
  vulnerabilities : List CsrfVuln
  success : Bool
  error : Option String
  vulnerable : Option Bool
deriving DecidableEq

/-- run_csrf_mode after the page has loaded and its forms were extracted:
zero forms short-circuits to a successful empty result; otherwise each form
runs through the loop.  Transport errors are raised by the external driver
before this logic and land in the except branch (success false + error set);
given an extracted form list no exception can occur. -/
def run_csrf_mode (cookies : List Cookie) (referrerPolicy : String)
    (forms : List FormDetails) : CsrfRunResults :=
  if forms.isEmpty then
    { forms_tested := 0, vulnerabilities := [], success := true,
      error := none, vulnerable := none }
  else
    let r := csrfTestForms cookies referrerPolicy forms
    { forms_tested := r.1, vulnerabilities := r.2, success := true,
      error := none, vulnerable := some (decide (r.2.length > 0)) }

/-! #### Closed forms for the CSRF analyzer -/

/-- Points one cookie contributes to the protection score. -/
def cookiePoints (c : Cookie) : Nat :=
  (if c.secure then 1 else 0) + (if c.httpOnly then 1 else 0) +
    (if c.sameSite == some "Strict" || c.sameSite == some "Lax" then 2 else 0)

/-- Whether the referrer policy earns its point. -/
def refererOk (refererPolicy : String) : Bool :=
  refererPolicy == "same-origin" || refererPolicy == "strict-origin"
    || refererPolicy == "strict-origin-when-cross-origin"

/-- Closed form of the protection score: per-cookie points accumulate over the
whole cookie list (each cookie is counted separately). -/
def csrfScoreClosed (form : FormDetails) (cookies : List Cookie)
    (refererPolicy : String) : Nat :=
  (cookies.map cookiePoints).sum + (if refererOk refererPolicy then 1 else 0) +
    (if form.has_csrf_token then 3 else 0)

/-! ### Injection probers (src/mode_xss.py and src/mode_sql_inject.py)

Both probers share the same loop shape: for every text field of the
configured form (everything except the submit button and checkbox-typed
fields) combine the payloads of the selected categories, optionally cut them
down to a random sample of max_attempts_per_field, and run one trial per
payload.  The browser interactions of a trial (page load, filling the other
required fields with benign data, clicking submit) are external; the trial
environment is an oracle mapping the current value of the total_tests counter
to what the detector sees afterwards (`none` models a locator or WebDriver
exception inside the per-trial try block: the trial is still counted but no
detection runs).  The random.sample call is a `sample` oracle, indexed by the
field position; theorems only assume it returns as many elements as asked. -/

/-- Per-field configuration as read from the config dict: selector, optional
type and required flag (selector kind and wait times only parameterize the
external locator and are not part of the decision logic). -/
structure ProbeField where
  selector : Option String
  type : Option String
  required : Bool
deriving DecidableEq

/-- Settings bag shared by sql_injection_settings and xss_settings: both
modes read the same three keys with the same defaults. -/
structure ProbeSettings where
  test_all_fields : Bool := true
  max_attempts_per_field : Nat := 0
  payload_categories : List String
deriving DecidableEq

/-- Target configuration slice used by either prober. -/
structure ProbeConfig where
  url : Option String
  fields : List (String × ProbeField)
  settings : ProbeSettings

/-- Filter building text_fields: drop the submit button and checkbox fields
(a field with no type key passes, since None != 'checkbox'). -/
def textFields (fields : List (String × ProbeField)) : List (String × ProbeField) :=
  fields.filter (fun f => f.1 != "submit_button" && f.2.type != some "checkbox")

/-- Combine the payload lists of the selected categories, in category order,
skipping unknown category names. -/
def combinePayloads (catalog : List (String × List String)) (cats : List String) :
    List String :=
  cats.foldl (fun acc c =>
    match catalog.lookup c with
    | some ps => acc ++ ps
    | none => acc) []

/-- Payload selection for one field: when 0 < max_attempts_per_field < the
catalog size, a random sample of that size is drawn (the sample1 oracle
stands for random.sample). -/
def selectPayloads (sample1 : List String → Nat → List String)
    (catalog : List (String × List String)) (s : ProbeSettings) : List String :=
  let payloads := combinePayloads catalog s.payload_categories
  if 0 < s.max_attempts_per_field ∧ s.max_attempts_per_field < payloads.length then
    sample1 payloads s.max_attempts_per_field
  else payloads

/-! #### XSS prober -/

/-- XSS payload catalog (XSS_PAYLOADS in src/mode_xss.py). -/
def XSS_PAYLOADS : List (String × List String) :=
  [("basic",
    ["<script>alert(1)</script>",
     "<img src=x onerror=alert(1)>",
     "<div onmouseover='alert(1)'>hover me</div>",
     "javascript:alert(1)"]),
   ("attribute",
    ["\" onmouseover=\"alert(1)\"",
     "' onclick='alert(1)'",
     "\"><script>alert(1)</script>",
     "';alert(1);//"]),
   ("encoded",
    ["<script>eval(String.fromCharCode(97,108,101,114,116,40,49,41))</script>",
     "<img src=\"x\" onerror=\"&#97;&#108;&#101;&#114;&#116;&#40;&#49;&#41;\">",
     "<svg onload=alert&#40;1&#41;>",
     "%3Cscript%3Ealert(1)%3C/script%3E"]),
   ("dom",
    ["#<script>alert(1)</script>",
     "?q=<script>alert(1)</script>",
     "javascript:void(0/**/);alert(1)"]),
   ("evasion",
    ["<scr<script>ipt>alert(1)</scr</script>ipt>",
     "<script>setTimeout('ale'+'rt(1)',0)</script>",
     "<img src=x:alert(alt) onerror=eval(src) alt=1>",
     "<script>/* */alert(1)/* */</script>"])]

/-- Match of the pattern evt=['\"]alert\(1\)['\"] (the quote classes are
chosen independently by the regex engine). -/
def attrPatHit (html evt : String) : Bool :=
  ["'", "\""].any (fun q1 => ["'", "\""].any (fun q2 =>
    hasSub html (evt ++ q1 ++ "alert(1)" ++ q2)))

/-- True when any of the fixed XSS_REFLECTION_PATTERNS regexes matches the
page (each pattern is a literal string except for the two quote classes). -/
def xssPatternHit (html : String) : Bool :=
  hasSub html "<script>alert(1)</script>" ||
  hasSub html "<img src=x onerror=alert(1)>" ||
  attrPatHit html "onmouseover=" ||
  attrPatHit html "onclick=" ||
  hasSub html "alert(1)" ||
  hasSub html "javascript:alert"

/-- Translation of detect_xss_reflection: exact reflection check, a
sanitization re-check (whose guard demands the payload be both present and
absent, as written in the source), and the fixed pattern fallback. -/
def detect_xss_reflection (html_content payload : String) : Bool :=
  if hasSub html_content payload then
    let sanitized_payload := escapeLtGt payload
    if hasSub html_content sanitized_payload && !(hasSub html_content payload) then
      false
    else true
  else
    xssPatternHit html_content

/-- One entry of the xss_vulnerabilities list. -/
structure XssVuln where
  field : String
  payload : String
  type : String
  details : String
  url : String
deriving DecidableEq

/-- Counters of run_xss_mode. -/
structure XssState where
  total_tests : Nat
  xss_vulnerabilities : List XssVuln
deriving DecidableEq

/-- The in-loop reflected-payload detector of run_xss_mode (lines 290-306):
re.escape(payload) followed by restoring literal angle brackets yields a
regex that matches exactly the literal payload text, so re.search on the page
source is literal substring containment. -/
def xssUnescapedHit (page_source payload : String) : Bool :=
  hasSub page_source payload

/-- One XSS trial: count it; on a successful submission the alert detector
fires first (an uncaught dialog is conclusive), then the unescaped-reflection
detector; a trial aborted by a locator error records nothing. -/
def xssTrial (env : Nat → Option (Option String × String)) (url fieldName payload : String)
    (st : XssState) : XssState :=
  let st1 : XssState := { st with total_tests := st.total_tests + 1 }
  match env st.total_tests with
  | none => st1
  | some (alertText, page_source) =>
    let st2 : XssState :=
      match alertText with
      | some t =>
        { st1 with xss_vulnerabilities := st1.xss_vulnerabilities ++
            [{ field := fieldName, payload := payload, type := "alert",
               details := "Alert dialog with text: " ++ t, url := url }] }
      | none => st1
    if xssUnescapedHit page_source payload then
      { st2 with xss_vulnerabilities := st2.xss_vulnerabilities ++
          [{ field := fieldName, payload := payload, type := "unescaped",
             details := "Payload found unescaped in page source", url := url }] }
    else st2

/-- Field loop of run_xss_mode: fields without a selector are skipped; after
a field's whole payload loop, testing stops early when test_all_fields is
false and some vulnerability has been recorded. -/
def xssRunFields (env : Nat → Option (Option String × String))
    (sample : Nat → List String → Nat → List String) (s : ProbeSettings) (url : String) :
    List (String × ProbeField) → Nat → XssState → XssState
  | [], _, st => st
  | f :: rest, i, st =>
    match f.2.selector with
    | none => xssRunFields env sample s url rest (i + 1) st
    | some _ =>
      let ps := selectPayloads (sample i) XSS_PAYLOADS s
      let st1 := ps.foldl (fun acc p => xssTrial env url f.1 p acc) st
      if !s.test_all_fields && !st1.xss_vulnerabilities.isEmpty then st1
      else xssRunFields env sample s url rest (i + 1) st1

/-- Return value of run_xss_mode: either the no-URL error dict or the results
dict {total_tests, xss_vulnerabilities}. -/
inductive XssModeResult where
  | noUrl
  | ok (st : XssState)
deriving DecidableEq

/-- run_xss_mode: bail out without a URL, otherwise run the field loop over
the text fields and return the counters. -/
def run_xss_mode (env : Nat → Option (Option String × String))
    (sample : Nat → List String → Nat → List String) (cfg : ProbeConfig) : XssModeResult :=
  match cfg.url with
  | none => XssModeResult.noUrl
  | some url =>
    XssModeResult.ok (xssRunFields env sample cfg.settings url (textFields cfg.fields) 0
      { total_tests := 0, xss_vulnerabilities := [] })

/-- Number of recorded findings of type unescaped. -/
def countUnescaped (st : XssState) : Nat :=
  (st.xss_vulnerabilities.filter (fun v => v.type == "unescaped")).length

/-! #### SQL injection prober -/

/-- SQL payload catalog (SQL_INJECTION_PAYLOADS in src/mode_sql_inject.py). -/
def SQL_INJECTION_PAYLOADS : List (String × List String) :=
  [("basic",
    ["' OR '1'='1",
     "' OR '1'='1' --",
     "' OR '1'='1' /*",
     "' OR '1'='1'; --",
     "admin' --",
     "admin' #"]),
   ("error",
    ["' AND 1=CONVERT(int,(SELECT @@VERSION)) --",
     "' AND 1=CONVERT(int,'a') --",
     "' AND 1=(SELECT COUNT(*) FROM sysusers AS sys1, sysusers as sys2, sysusers as sys3) --"]),
   ("time",
    ["'; WAITFOR DELAY '0:0:2' --",
     "'; IF 1=1 WAITFOR DELAY '0:0:2' --"]),
   ("stacked",
    ["'; INSERT INTO users (username, password) VALUES ('hacker', 'password'); --",
     "'; DELETE FROM users WHERE username='test'; --",
     "'; DROP TABLE users; --"]),
   ("complex",
    ["' AND (SELECT 'x' FROM USERS WHERE 1=1 AND ROWNUM<2) IS NOT NULL --",
     "' HAVING 1=1 --",
     "' GROUP BY columnnames HAVING 1=1 --",
     "' SELECT name FROM syscolumns WHERE id = (SELECT id FROM sysobjects WHERE name = 'tablename') --"]),
   ("nosql",
    ["' || 1==1",
     "' && 1==1",
     "'; return true; var foo='",
     "'; return false; var foo='"]),
   ("xss",
    ["'><script>alert(1)</script>",
     "' UNION SELECT '<script>alert(1)</script>', NULL, NULL, NULL --"]),
   ("encoding",
    ["'%20OR%20'1'%3D'1'",
     "' UNION%20SELECT%20'1'%2C'2'%2C'3'%2C'4'--"])]

/-- An error signature: all entries of the Python error_patterns list are
regex-literal strings except one genuine regex. -/
inductive SqlPat where
  | lit (s : String)
  | lineNum
deriving DecidableEq

/-- True when the page contains the text \"line \" immediately followed by a
digit, which is exactly when the regex line \\d+ matches. -/
def lineDigitHit : List Char → Bool
  | [] => false
  | a :: rest =>
    (listLeads "line ".data (a :: rest) &&
      (match (a :: rest).drop 5 with
        | d :: _ => d.isDigit
        | [] => false)) || lineDigitHit rest

/-- The error_patterns list of run_sql_injection_mode, in source order
(including the duplicated entry). -/
def ERROR_PATTERNS : List SqlPat :=
  [SqlPat.lit "sql syntax", SqlPat.lit "unclosed quotation",
   SqlPat.lit "unterminated string", SqlPat.lit "sql error",
   SqlPat.lit "syntax error", SqlPat.lit "mysql error",
   SqlPat.lit "postgresql error", SqlPat.lit "database error",
   SqlPat.lit "odbc driver", SqlPat.lit "ora-", SqlPat.lineNum,
   SqlPat.lit "syntax error", SqlPat.lit "unexpected end",
   SqlPat.lit "warning:", SqlPat.lit "invalid query", SqlPat.lit "sql state",
   SqlPat.lit "microsoft sql", SqlPat.lit "postgres error",
   SqlPat.lit "mysqli", SqlPat.lit "mysql_query"]

/-- re.search of one pattern against the (already lower-cased) page source. -/
def sqlPatHit (page_source : String) : SqlPat → Bool
  | SqlPat.lit s => hasSub page_source s
  | SqlPat.lineNum => lineDigitHit page_source.data

/-- The pattern loop: first matching pattern wins (the loop breaks). -/
def firstErrorPattern (page_source : String) : Option SqlPat :=
  ERROR_PATTERNS.find? (sqlPatHit page_source)

/-- One entry of suspicious_responses. -/
structure SqlVuln where
  field : String
  payload : String
  pattern_matched : SqlPat
  url : String
deriving DecidableEq

/-- Counters of run_sql_injection_mode. -/
structure SqlState where
  total_tests : Nat
  suspicious_responses : List SqlVuln
deriving DecidableEq

/-- One SQL trial: count it; on successful submission the page source is
lower-cased and scanned for the first matching error pattern. -/
def sqlTrial (env : Nat → Option String) (url fieldName payload : String)
    (st : SqlState) : SqlState :=
  let st1 : SqlState := { st with total_tests := st.total_tests + 1 }
  match env st.total_tests with
  | none => st1
  | some src =>
    match firstErrorPattern (pyLower src) with
    | some pat =>
      { st1 with suspicious_responses := st1.suspicious_responses ++
          [{ field := fieldName, payload := payload, pattern_matched := pat, url := url }] }
    | none => st1

/-- Field loop of run_sql_injection_mode, same structure as the XSS one. -/
def sqlRunFields (env : Nat → Option String)
    (sample : Nat → List String → Nat → List String) (s : ProbeSettings) (url : String) :
    List (String × ProbeField) → Nat → SqlState → SqlState
  | [], _, st => st
  | f :: rest, i, st =>
    match f.2.selector with
    | none => sqlRunFields env sample s url rest (i + 1) st
    | some _ =>
      let ps := selectPayloads (sample i) SQL_INJECTION_PAYLOADS s
      let st1 := ps.foldl (fun acc p => sqlTrial env url f.1 p acc) st
      if !s.test_all_fields && !st1.suspicious_responses.isEmpty then st1
      else sqlRunFields env sample s url rest (i + 1) st1

/-- run_sql_injection_mode: the first component is the internal counter state
the function builds (total_tests and suspicious_responses, which it only
logs); the second component is the value returned to the caller, and the
Python function has no return statement on any path past the URL check (its
annotation is -> None), so it is always `none`. -/
def run_sql_injection_mode (env : Nat → Option String)
    (sample : Nat → List String → Nat → List String) (cfg : ProbeConfig) :
    SqlState × Option SqlState :=
  match cfg.url with
  | none => ({ total_tests := 0, suspicious_responses := [] }, none)
  | some url =>
    (sqlRunFields env sample cfg.settings url (textFields cfg.fields) 0
      { total_tests := 0, suspicious_responses := [] }, none)

/-! ### Header analyzer (src/mode_headers.py)

The HTTP fetch is external; the embedding starts from the response header
map (a list of name/value pairs in arrival order) and from the outcome token
of the HTTPS-redirect check (passed / failed / skipped / error), which is
itself determined by external network traffic. -/

/-- The security-header catalog: name and severity (description,
recommendation and info strings only decorate the report and are omitted). -/
def SECURITY_HEADERS : List (String × String) :=
  [("Strict-Transport-Security", "high"),
   ("Content-Security-Policy", "high"),
   ("X-Content-Type-Options", "medium"),
   ("X-Frame-Options", "medium"),
   ("X-XSS-Protection", "medium"),
   ("Referrer-Policy", "medium"),
   ("Permissions-Policy", "low"),
   ("Cache-Control", "low"),
   ("Clear-Site-Data", "low")]

/-- One analyzed header (the fields of the analyze_header result dict used
downstream). -/
structure HeaderResult where
  name : String
  value : Option String
  status : String
  severity : String
deriving DecidableEq

/-- Strict-Transport-Security branch of analyze_header:
int(header_value.split('max-age=')[1].split(';')[0].strip()), where a parse
failure is the except branch setting status invalid. -/
def hstsStatus (headerValue : String) : String :=
  if hasSub headerValue "max-age=" then
    let seg := (splitBySub "max-age=".data headerValue.data).getD 1 []
    let numPart := (splitBySub ";".data seg).headD []
    match pyInt ⟨numPart⟩ with
    | some maxAge => if maxAge < 31536000 then "weak" else "present"
    | none => "invalid"
  else "weak"

/-- Translation of analyze_header: status starts at present and the
header-specific branches downgrade or upgrade it. -/
def analyze_header (headerName headerValue : String) : HeaderResult :=
  let severity := (SECURITY_HEADERS.lookup headerName).getD "low"
  let status :=
    if headerName == "Strict-Transport-Security" then
      hstsStatus headerValue
    else if headerName == "Content-Security-Policy" then
      if hasSub headerValue "default-src 'none'" || hasSub headerValue "default-src 'self'" then
        "strong"
      else if hasSub headerValue "default-src" then "moderate"
      else "weak"
    else if headerName == "X-Content-Type-Options" then
      if pyLower headerValue != "nosniff" then "weak" else "present"
    else if headerName == "X-Frame-Options" then
      if !(pyUpper headerValue == "DENY" || pyUpper headerValue == "SAMEORIGIN") then
        "weak"
      else "present"
    else if headerName == "X-XSS-Protection" then
      if headerValue != "1; mode=block" then "weak" else "present"
    else if headerName == "Referrer-Policy" then
      if ["no-referrer", "same-origin", "strict-origin",
          "strict-origin-when-cross-origin"].any (fun p => hasSub headerValue p) then
        "strong"
      else if ["origin", "origin-when-cross-origin",
          "no-referrer-when-downgrade"].any (fun p => hasSub headerValue p) then
        "moderate"
      else "weak"
    else "present"
  { name := headerName, value := some headerValue, status := status, severity := severity }

/-- The case-insensitive header lookup: the dict comprehension
{k.lower(): (k, v)} keeps the last pair for a repeated lower-cased name. -/
def lookupLastLower (headers : List (String × String)) (k : String) :
    Option (String × String) :=
  headers.foldl (fun acc p => if pyLower p.1 == k then some p else acc) none

/-- Translation of evaluate_security_headers: walk the catalog in order,
analyze each header found case-insensitively, mark the rest missing. -/
def evaluate_security_headers (headers : List (String × String)) : List HeaderResult :=
  SECURITY_HEADERS.map (fun h =>
    match lookupLastLower headers (pyLower h.1) with
    | some kv => analyze_header h.1 kv.2
    | none => { name := h.1, value := none, status := "missing", severity := h.2 })

/-- Catalog weight of a severity: high 3, medium 2, otherwise 1. -/
def headerWeight (sev : String) : Nat :=
  if sev == "high" then 3 else if sev == "medium" then 2 else 1

/-- Severity a header name carries in the catalog. -/
def catalogSeverity (n : String) : String :=
  (SECURITY_HEADERS.lookup n).getD "low"

/-- Statuses that earn credit in the score. -/
def passingStatus (st : String) : Bool :=
  st == "present" || st == "strong" || st == "moderate"

/-- total_weight of run_headers_mode lines 323-325. -/
def totalWeight (hrs : List HeaderResult) : Nat :=
  ((hrs.filter (fun h => (SECURITY_HEADERS.lookup h.name).isSome)).map
    (fun h => headerWeight (catalogSeverity h.name))).sum

/-- Weight one analyzed header earns (run_headers_mode lines 327-330). -/
def earnedOne (h : HeaderResult) : Nat :=
  if catalogSeverity h.name == "high" && passingStatus h.status then 3
  else if catalogSeverity h.name == "medium" && passingStatus h.status then 2
  else if passingStatus h.status then 1
  else 0

/-- earned_weight of run_headers_mode. -/
def earnedWeight (hrs : List HeaderResult) : Nat :=
  ((hrs.filter (fun h => (SECURITY_HEADERS.lookup h.name).isSome)).map earnedOne).sum

/-- Security score of run_headers_mode lines 332-337: the redirect bonus is
added to both sides before the ratio, and int((earned/total)*100) is floor
division (for the weights reachable here, with denominator 17 or 19, the
double-precision ratio is never close enough to an integer for the float
truncation to differ from exact floor division). -/
def headersScore (headers : List (String × String)) (redirectStatus : String) : Nat :=
  let hrs := evaluate_security_headers headers
  let ew0 := earnedWeight hrs
  let tw0 := totalWeight hrs
  let ew := if redirectStatus == "passed" then ew0 + 2 else ew0
  let tw := if redirectStatus == "passed" then tw0 + 2 else tw0
  if 0 < tw then (ew * 100) / tw else 0

/-- Rating bands of run_headers_mode lines 341-348. -/
def securityRating (score : Nat) : String :=
  if score ≥ 90 then "excellent"
  else if score ≥ 75 then "good"
  else if score ≥ 50 then "fair"
  else "poor"

/-! ### Aggregator and scorer (src/mode_comprehensive.py)

calculate_security_score works on nested Python dicts whose shape is only as
reliable as what each mode returned, so the embedding uses a small dynamic
value type; a dict is a key/value list with distinct keys (Python dict
construction overwrites duplicates, and every dict built here has literal
distinct keys).  `none` out of the scorer models an uncaught exception
(AttributeError/TypeError on an unexpected shape), which the caller turns
into a score of 0. -/

/-- Dynamic value: the subset of Python values the results trees use. -/
inductive JVal where
  | jnull
  | jbool (b : Bool)
  | jnat (n : Nat)
  | jstr (s : String)
  | jlist (xs : List JVal)
  | jdict (kvs : List (String × JVal))

/-- Python truthiness test used by `if not results`. -/
def jFalsy : JVal → Bool
  | JVal.jnull => true
  | JVal.jbool b => !b
  | JVal.jnat n => n == 0
  | JVal.jstr s => s.isEmpty
  | JVal.jlist xs => xs.isEmpty
  | JVal.jdict kvs => kvs.isEmpty

/-- dict.get(k, default) on a dict value list. -/
def jget (kvs : List (String × JVal)) (k : String) (dflt : JVal) : JVal :=
  match kvs.lookup k with
  | some v => v
  | none => dflt

/-- v.get(k, default): only dicts have .get; anything else raises. -/
def jgetOpt : JVal → String → JVal → Option JVal
  | JVal.jdict kvs, k, dflt => some (jget kvs k dflt)
  | _, _, _ => none

/-- len(v): defined for strings, lists and dicts; anything else raises. -/
def pyLen : JVal → Option Nat
  | JVal.jstr s => some s.length
  | JVal.jlist xs => some xs.length
  | JVal.jdict kvs => some kvs.length
  | _ => none

/-- Python iteration over a value (for the `for vuln in ...` loops): lists
yield their items, dicts their keys, strings their characters; other
non-iterables raise. -/
def pyIter : JVal → Option (List JVal)
  | JVal.jlist xs => some xs
  | JVal.jdict kvs => some (kvs.map (fun kv => JVal.jstr kv.1))
  | JVal.jstr s => some (s.data.map (fun c => JVal.jstr ⟨[c]⟩))
  | _ => none

/-- Severity counters in the order critical, high, medium, low. -/
structure SevCounts where
  critical : Nat
  high : Nat
  medium : Nat
  low : Nat
deriving DecidableEq

/-- One step of `if severity in severity_counts: severity_counts[severity] += 1`
(membership in the dict is a hash lookup, so an unhashable severity value —
a list or dict — raises TypeError; any other non-matching value just fails
the membership test). -/
def sevBump (c : SevCounts) : JVal → Option SevCounts
  | JVal.jlist _ => none
  | JVal.jdict _ => none
  | JVal.jstr s =>
    if s == "critical" then some { c with critical := c.critical + 1 }
    else if s == "high" then some { c with high := c.high + 1 }
    else if s == "medium" then some { c with medium := c.medium + 1 }
    else if s == "low" then some { c with low := c.low + 1 }
    else some c
  | _ => some c

/-- The two severity-tallying loops (CSRF and header issues): each item is
read with vuln.get('severity', 'medium') and bumped. -/
def sevLoop (c : SevCounts) : List JVal → Option SevCounts
  | [] => some c
  | v :: rest => do
    let sev ← jgetOpt v "severity" (JVal.jstr "medium")
    let c1 ← sevBump c sev
    sevLoop c1 rest

/-- The `is None` identity test of the source. -/
def jIsNull : JVal → Bool
  | JVal.jnull => true
  | _ => false

/-- Count-by-length step used for the SQL and XSS lists: after the two
None-guards the code adds len(vulns) to the critical counter. -/
def criticalFromList (c : SevCounts) (slot : JVal) (key : String) : Option SevCounts := do
  if jIsNull slot then pure c else do
    let vulns ← jgetOpt slot key (JVal.jlist [])
    if jIsNull vulns then pure c else do
      let n ← pyLen vulns
      pure { c with critical := c.critical + n }

/-- The severity loops for the CSRF / header slots: None-guard then iterate. -/
def sevFromList (c : SevCounts) (slot : JVal) (key : String) : Option SevCounts := do
  if jIsNull slot then pure c else do
    let vulns ← jgetOpt slot key (JVal.jlist [])
    if jIsNull vulns then pure c else do
      let items ← pyIter vulns
      sevLoop c items

/-- Translation of calculate_security_score: start at 100, tally severities
from the four category slots, deduct 15/10/5/1 per severity, clamp at 0.
A `none` result models an exception escaping the function. -/
def calculate_security_score (results : JVal) : Option Int :=
  if jFalsy results then some 100
  else
    match results with
    | JVal.jdict kvs => do
      let c0 : SevCounts := { critical := 0, high := 0, medium := 0, low := 0 }
      let sqlRes := jget kvs "sql_injection_results" (JVal.jdict [])
      let c1 ← if jIsNull sqlRes then pure c0 else criticalFromList c0 sqlRes "sql_vulnerabilities"
      let xssRes := jget kvs "xss_results" (JVal.jdict [])
      let c2 ← if jIsNull xssRes then pure c1 else criticalFromList c1 xssRes "xss_vulnerabilities"
      let csrfRes := jget kvs "csrf_results" (JVal.jdict [])
      let c3 ← sevFromList c2 csrfRes "csrf_vulnerabilities"
      let headersRes := jget kvs "headers_results" (JVal.jdict [])
      let c4 ← sevFromList c3 headersRes "security_issues"
      let score : Int := 100 - c4.critical * 15 - c4.high * 10 - c4.medium * 5 - c4.low * 1
      pure (max 0 score)
    | _ => none

/-- Outcome of running one category's prober: the returned results value,
or the message of a raised exception. -/
structure ProbeOutcomes where
  sql : Except String JVal
  xss : Except String JVal
  csrf : Except String JVal
  headers : Except String JVal

/-- What lands in a category's slot: the returned value, or the error dict
built in the except branches of run_comprehensive_mode. -/
def errSlot : Except String JVal → JVal
  | Except.ok v => v
  | Except.error e => JVal.jdict [("error", JVal.jstr e)]

/-- The category-running section of run_comprehensive_mode (lines 49-142):
each selected category runs inside its own try/except, in the fixed order
sql, xss, csrf, headers, and fills its own slot. -/
def buildComprehensive (tests : List String) (out : ProbeOutcomes) :
    List (String × JVal) :=
  (if tests.contains "sql" then [("sql_injection_results", errSlot out.sql)] else []) ++
  (if tests.contains "xss" then [("xss_results", errSlot out.xss)] else []) ++
  (if tests.contains "csrf" then [("csrf_results", errSlot out.csrf)] else []) ++
  (if tests.contains "headers" then [("headers_results", errSlot out.headers)] else [])

/-- Python dict assignment d[k] = v on a distinct-key dict list. -/
def jset (kvs : List (String × JVal)) (k : String) (v : JVal) :
    List (String × JVal) :=
  if (kvs.lookup k).isSome then
    kvs.map (fun p => if p.1 == k then (k, v) else p)
  else kvs ++ [(k, v)]

/-- Normalization pass of run_comprehensive_mode lines 150-156: insert an
empty dict for each of the four category keys that is missing (for dict
values the isinstance fixup never fires). -/
def ensureCategoryKeys (kvs : List (String × JVal)) : List (String × JVal) :=
  ["sql_injection_results", "xss_results", "csrf_results", "headers_results"].foldl
    (fun acc k => if (acc.lookup k).isSome then acc else jset acc k (JVal.jdict [])) kvs

/-- Normalization of lines 162-165 (and its 179-192 double): when the headers
slot is a dict whose security_issues key is absent or None, set it to [].
The report rendering between these lines only writes report files and the
report_path / report_error keys, which the scorer never reads. -/
def fixSecurityIssues (kvs : List (String × JVal)) : List (String × JVal) :=
  match kvs.lookup "headers_results" with
  | some (JVal.jdict hs) =>
    if jIsNull (jget hs "security_issues" JVal.jnull) then
      jset kvs "headers_results" (JVal.jdict (jset hs "security_issues" (JVal.jlist [])))
    else kvs
  | _ => kvs

/-- The comprehensive results dict as it stands when the score is computed
(line 284). -/
def comprehensiveResults (tests : List String) (out : ProbeOutcomes) :
    List (String × JVal) :=
  fixSecurityIssues (ensureCategoryKeys (buildComprehensive tests out))

/-- Lines 282-289: the score, with an exception inside the scorer degrading
to 0. -/
def comprehensiveScore (tests : List String) (out : ProbeOutcomes) : Int :=
  match calculate_security_score (JVal.jdict (comprehensiveResults tests out)) with
  | some s => s
  | none => 0

/-- The results dict run_csrf_mode hands to the aggregator, rendered into
the dynamic value type (keys exactly as the Python dict literally builds
them; start_time / duration carry clock values irrelevant to scoring and are
rendered as 0). -/
def csrfResultsToJson (url : String) (r : CsrfRunResults) : JVal :=
  JVal.jdict ([("target_url", JVal.jstr url),
    ("test_type", JVal.jstr "csrf"),
    ("forms_tested", JVal.jnat r.forms_tested),
    ("vulnerabilities", JVal.jlist (r.vulnerabilities.map (fun v =>
      JVal.jdict [("form_id", JVal.jstr v.form_id),
        ("form_name", JVal.jstr v.form_name),
        ("type", JVal.jstr v.type),
        ("severity", JVal.jstr v.severity),
        ("details", JVal.jstr v.details),
        ("protection", JVal.jdict
          [("has_csrf_token", JVal.jbool v.protection.has_csrf_token),
           ("has_samesite_cookie", JVal.jbool v.protection.has_samesite_cookie),
           ("has_secure_cookie", JVal.jbool v.protection.has_secure_cookie),
           ("has_httponly_cookie", JVal.jbool v.protection.has_httponly_cookie),
           ("has_referer_protection", JVal.jbool v.protection.has_referer_protection),
           ("score", JVal.jnat v.protection.score),
           ("level", JVal.jstr v.protection.level)])]))),
    ("start_time", JVal.jnat 0),
    ("success", JVal.jbool r.success)] ++
    (match r.vulnerable with
     | some b => [("duration", JVal.jnat 0), ("vulnerable", JVal.jbool b)]
     | none => []) ++
    (match r.error with
     | some e => [("error", JVal.jstr e)]
     | none => []))

/-! ### Spec-side definition and concrete fixtures used by the claims -/

/-- Modelled from the spec's words, for comparison against the source (claim
C4): "+2 if any cookie has SameSite ∈ {Strict, Lax}; +1 each for Secure and
HttpOnly cookie attributes observed on any cookie; +1 if referrer-policy is
strong; +3 if a CSRF-token field was found" — each bonus at most once. -/
def specCsrfProtectionScore (form : FormDetails) (cookies : List Cookie)
    (refererPolicy : String) : Nat :=
  (if cookies.any (fun c => c.sameSite == some "Strict" || c.sameSite == some "Lax")
    then 2 else 0) +
  (if cookies.any (fun c => c.secure) then 1 else 0) +
  (if cookies.any (fun c => c.httpOnly) then 1 else 0) +
  (if refererOk refererPolicy then 1 else 0) +
  (if form.has_csrf_token then 3 else 0)

/-- Trials the field loop performs when it never exits early: every field
with a selector contributes the length of its selected payload list. -/
def fieldsTrialSum (sample : Nat → List String → Nat → List String)
    (catalog : List (String × List String)) (s : ProbeSettings) :
    List (String × ProbeField) → Nat → Nat
  | [], _ => 0
  | f :: rest, i =>
    (match f.2.selector with
     | none => 0
     | some _ => (selectPayloads (sample i) catalog s).length) +
      fieldsTrialSum sample catalog s rest (i + 1)

/-- A POST form carrying a CSRF token field. -/
def formTok : FormDetails :=
  { action := "/submit", method := "post", id := "f1", name := "form1",
    has_csrf_token := true }

/-- A POST form without any CSRF token field. -/
def formNoTok : FormDetails :=
  { action := "/submit", method := "post", id := "f1", name := "form1",
    has_csrf_token := false }

/-- A GET form. -/
def formGet : FormDetails :=
  { action := "/search", method := "get", id := "g1", name := "search",
    has_csrf_token := false }

/-- A cookie carrying only the Secure attribute. -/
def cookieSec : Cookie := { secure := true, httpOnly := false, sameSite := none }

/-- A second Secure-only cookie (sessions commonly set several). -/
def cookieSec2 : Cookie := { secure := true, httpOnly := false, sameSite := none }

/-- A fully hardened cookie. -/
def cookieFull : Cookie :=
  { secure := true, httpOnly := true, sameSite := some "Strict" }

/-- The comment field of the end-to-end target. -/
def fldComment : ProbeField :=
  { selector := some "#comment", type := none, required := true }

/-- The submit control of the end-to-end target. -/
def fldGo : ProbeField :=
  { selector := some "#go", type := none, required := false }

/-- A second plain text field. -/
def fldEmail : ProbeField :=
  { selector := some "#email", type := none, required := false }

/-- The end-to-end target of spec §8: one field `comment`, submit control
`#go`, SQL categories ["basic"], max_attempts_per_field = 2 (test_all_fields
keeps its default True). -/
def cfgC3 : ProbeConfig :=
  { url := some "http://example.test",
    fields := [("comment", fldComment), ("submit_button", fldGo)],
    settings := { test_all_fields := true, max_attempts_per_field := 2,
                  payload_categories := ["basic"] } }

/-- Settings with the early-exit behaviour switched on. -/
def sC10 : ProbeSettings :=
  { test_all_fields := false, max_attempts_per_field := 0,
    payload_categories := ["basic"] }

/-- An XSS trial environment that reflects a fixed basic payload verbatim
inside a larger page. -/
def envXssHit : Nat → Option (Option String × String) :=
  fun _ => some (none, "you wrote: <script>alert(1)</script> thanks")

/-- A sample oracle: deterministic stand-in for random.sample that satisfies
its length contract. -/
def sampleTake : Nat → List String → Nat → List String :=
  fun _ l k => l.take k

/-- A trial environment whose page source never matches an error pattern. -/
def envBenign : Nat → Option String :=
  fun _ => some "thanks for your submission"

/-- A trial environment whose page source always shows a SQL error. -/
def envSqlError : Nat → Option String :=
  fun _ => some "SQL syntax error near line 1"

/-- An XSS trial environment that reflects nothing and never alerts. -/
def envXssQuiet : Nat → Option (Option String × String) :=
  fun _ => some (none, "thanks for your submission")

/-- An XSS trial environment that reflects a fixed basic payload verbatim. -/
def envXssReflect : Nat → Option (Option String × String) :=
  fun _ => some (none, "you wrote: <script>alert(1)</script>")

/-- The default tests_to_run list of run_comprehensive_mode. -/
def defaultTests : List String := ["sql", "xss", "csrf", "headers"]

/-- Header response earning full credit everywhere: every catalog header
present with a present or strong status. -/
def hs100 : List (String × String) :=
  [("Strict-Transport-Security", "max-age=31536000; includeSubDomains"),
   ("Content-Security-Policy", "default-src 'self'"),
   ("X-Content-Type-Options", "nosniff"),
   ("X-Frame-Options", "DENY"),
   ("X-XSS-Protection", "1; mode=block"),
   ("Referrer-Policy", "no-referrer"),
   ("Permissions-Policy", "camera=(), microphone=()"),
   ("Cache-Control", "no-store, max-age=0"),
   ("Clear-Site-Data", "\"cache\", \"cookies\"")]

/-! ## Lemmas and claim theorems -/

/-- Structures with two fields are equal when their fields are. -/
theorem sqlState_ext {a b : SqlState} (h1 : a.total_tests = b.total_tests)
    (h2 : a.suspicious_responses = b.suspicious_responses) : a = b := by
  cases a; cases b; simp_all

/-- Same extensionality for the XSS counters. -/
theorem xssState_ext {a b : XssState} (h1 : a.total_tests = b.total_tests)
    (h2 : a.xss_vulnerabilities = b.xss_vulnerabilities) : a = b := by
  cases a; cases b; simp_all

/-- The vulnerable flag and severity of a CSRF test are functions of the
protection level alone. -/
theorem test_csrf_fields (form : FormDetails) (cookies : List Cookie) (pol : String) :
    (test_csrf_vulnerability form cookies pol).vulnerable
        = ((check_for_csrf_protection form cookies pol).level == "weak"
            || (check_for_csrf_protection form cookies pol).level == "medium") ∧
    (test_csrf_vulnerability form cookies pol).severity
        = (if (check_for_csrf_protection form cookies pol).level == "weak" then "high"
           else if (check_for_csrf_protection form cookies pol).level == "medium" then "medium"
           else "low") := by
  unfold test_csrf_vulnerability
  by_cases h1 : ((check_for_csrf_protection form cookies pol).level == "weak") = true <;>
    by_cases h2 : ((check_for_csrf_protection form cookies pol).level == "medium") = true <;>
    simp [h1, h2]

/-- One pass of the form loop adds one to the counter and appends exactly the
form's contribution. -/
theorem csrfFormStep_eq (cookies : List Cookie) (pol : String)
    (acc : Nat × List CsrfVuln) (form : FormDetails) :
    csrfFormStep cookies pol acc form
      = (acc.1 + 1, acc.2 ++ csrfVulnsOfForm cookies pol form) := by
  unfold csrfFormStep csrfVulnsOfForm
  by_cases h1 : (form.method == "get") = true <;>
    by_cases h2 : (test_csrf_vulnerability form cookies pol).vulnerable = true <;>
    simp [h1, h2]

/-- The whole form loop from any accumulator. -/
theorem csrfTestForms_fold (cookies : List Cookie) (pol : String)
    (forms : List FormDetails) (acc : Nat × List CsrfVuln) :
    forms.foldl (csrfFormStep cookies pol) acc
      = (acc.1 + forms.length,
         acc.2 ++ (forms.map (csrfVulnsOfForm cookies pol)).flatten) := by
  induction forms generalizing acc with
  | nil => simp
  | cons f fs ih =>
    simp only [List.foldl_cons, List.map_cons, List.flatten, List.length_cons]
    rw [csrfFormStep_eq, ih]
    simp [List.append_assoc]
    omega

/-- A SQL trial always counts itself, whatever the environment shows. -/
theorem sqlTrial_total (env : Nat → Option String) (url f p : String) (st : SqlState) :
    (sqlTrial env url f p st).total_tests = st.total_tests + 1 := by
  unfold sqlTrial
  cases env st.total_tests with
  | none => rfl
  | some src =>
    dsimp only
    cases firstErrorPattern (pyLower src) <;> rfl

/-- The payload loop of one field performs one trial per payload. -/
theorem sql_payload_fold_total (env : Nat → Option String) (url f : String)
    (ps : List String) (st : SqlState) :
    (ps.foldl (fun acc p => sqlTrial env url f p acc) st).total_tests
      = st.total_tests + ps.length := by
  induction ps generalizing st with
  | nil => simp
  | cons p rest ih =>
    simp only [List.foldl_cons, List.length_cons]
    rw [ih, sqlTrial_total]
    omega

/-- In an environment where no error pattern ever matches, no suspicious
response is recorded. -/
theorem sql_payload_fold_nofind (env : Nat → Option String) (url f : String)
    (henv : ∀ n src, env n = some src → firstErrorPattern (pyLower src) = none)
    (ps : List String) (st : SqlState) :
    (ps.foldl (fun acc p => sqlTrial env url f p acc) st).suspicious_responses
      = st.suspicious_responses := by
  induction ps generalizing st with
  | nil => rfl
  | cons p rest ih =>
    simp only [List.foldl_cons]
    rw [ih]
    unfold sqlTrial
    cases hv : env st.total_tests with
    | none => rfl
    | some src =>
      dsimp only
      rw [henv st.total_tests src hv]

/-- With test_all_fields left at its default True, the field loop runs every
payload of every field carrying a selector. -/
theorem sqlRunFields_total (env : Nat → Option String)
    (sample : Nat → List String → Nat → List String) (s : ProbeSettings) (url : String)
    (hall : s.test_all_fields = true) :
    ∀ (fields : List (String × ProbeField)) (i : Nat) (st : SqlState),
      (sqlRunFields env sample s url fields i st).total_tests
        = st.total_tests + fieldsTrialSum sample SQL_INJECTION_PAYLOADS s fields i := by
  intro fields
  induction fields with
  | nil => intro i st; simp [sqlRunFields, fieldsTrialSum]
  | cons f rest ih =>
    intro i st
    unfold sqlRunFields fieldsTrialSum
    cases hsel : f.2.selector with
    | none => rw [ih]; dsimp only; omega
    | some sel =>
      simp only [hall, Bool.not_true, Bool.false_and, Bool.false_eq_true, if_false]
      rw [ih, sql_payload_fold_total]
      omega

/-- An XSS trial always counts itself. -/
theorem xssTrial_total (env : Nat → Option (Option String × String))
    (url f p : String) (st : XssState) :
    (xssTrial env url f p st).total_tests = st.total_tests + 1 := by
  unfold xssTrial
  cases env st.total_tests with
  | none => rfl
  | some pr =>
    cases pr with
    | mk a src =>
      dsimp only
      cases a <;> cases h2 : xssUnescapedHit src p <;> simp [h2]

/-- The XSS payload loop performs one trial per payload. -/
theorem xss_payload_fold_total (env : Nat → Option (Option String × String))
    (url f : String) (ps : List String) (st : XssState) :
    (ps.foldl (fun acc p => xssTrial env url f p acc) st).total_tests
      = st.total_tests + ps.length := by
  induction ps generalizing st with
  | nil => simp
  | cons p rest ih =>
    simp only [List.foldl_cons, List.length_cons]
    rw [ih, xssTrial_total]
    omega

/-- With test_all_fields True the XSS field loop also visits everything. -/
theorem xssRunFields_total (env : Nat → Option (Option String × String))
    (sample : Nat → List String → Nat → List String) (s : ProbeSettings) (url : String)
    (hall : s.test_all_fields = true) :
    ∀ (fields : List (String × ProbeField)) (i : Nat) (st : XssState),
      (xssRunFields env sample s url fields i st).total_tests
        = st.total_tests + fieldsTrialSum sample XSS_PAYLOADS s fields i := by
  intro fields
  induction fields with
  | nil => intro i st; simp [xssRunFields, fieldsTrialSum]
  | cons f rest ih =>
    intro i st
    unfold xssRunFields fieldsTrialSum
    cases hsel : f.2.selector with
    | none => rw [ih]; dsimp only; omega
    | some sel =>
      simp only [hall, Bool.not_true, Bool.false_and, Bool.false_eq_true, if_false]
      rw [ih, xss_payload_fold_total]
      omega

/-- Count of unescaped findings after one observed trial: up by one exactly
when the raw payload occurs verbatim in the page source (the alert detector
only ever appends type alert findings). -/
theorem xssTrial_unescaped_count (a : Option String) (src url f p : String)
    (st : XssState) :
    countUnescaped (xssTrial (fun _ => some (a, src)) url f p st)
      = countUnescaped st + (if hasSub src p then 1 else 0) := by
  unfold xssTrial countUnescaped xssUnescapedHit
  cases a <;> by_cases h : hasSub src p = true <;>
    simp [h, List.filter_append]

/-- A header earns its full catalog weight exactly when its status passes. -/
theorem earnedOne_eq (h : HeaderResult) :
    earnedOne h = if passingStatus h.status then headerWeight (catalogSeverity h.name) else 0 := by
  unfold earnedOne headerWeight
  by_cases h1 : (catalogSeverity h.name == "high") = true <;>
    by_cases h2 : (catalogSeverity h.name == "medium") = true <;>
    by_cases hp : passingStatus h.status = true <;>
    simp [h1, h2, hp]

/-- Earned weight never exceeds total weight. -/
theorem earned_le_totalWeight (hrs : List HeaderResult) :
    earnedWeight hrs ≤ totalWeight hrs := by
  unfold earnedWeight totalWeight
  apply List.sum_le_sum
  intro h _
  rw [earnedOne_eq]
  by_cases hp : passingStatus h.status = true <;> simp [hp]

/-- The score ratio is capped at 100 whenever the numerator is bounded by the
denominator. -/
theorem ratio_le_100 {ew tw : Nat} (h : ew ≤ tw) :
    (if 0 < tw then ew * 100 / tw else 0) ≤ 100 := by
  by_cases h0 : 0 < tw
  · rw [if_pos h0]
    calc ew * 100 / tw ≤ tw * 100 / tw :=
          Nat.div_le_div_right (Nat.mul_le_mul_right _ h)
      _ = 100 := Nat.mul_div_cancel_left _ h0
  · rw [if_neg h0]; omega

/-- Every header security score lies below 100. -/
theorem headersScore_le_100 (headers : List (String × String)) (redirect : String) :
    headersScore headers redirect ≤ 100 := by
  unfold headersScore
  dsimp only
  have hle := earned_le_totalWeight (evaluate_security_headers headers)
  by_cases hr : (redirect == "passed") = true <;> simp only [hr, if_true, if_false]
  · exact ratio_le_100 (by omega)
  · exact ratio_le_100 hle

/-- When every analyzed header passes, earned weight equals total weight. -/
theorem earned_eq_total_of_passing (headers : List (String × String))
    (hall : ∀ r ∈ evaluate_security_headers headers,
      r.status = "present" ∨ r.status = "strong") :
    earnedWeight (evaluate_security_headers headers)
      = totalWeight (evaluate_security_headers headers) := by
  unfold earnedWeight totalWeight
  congr 1
  apply List.map_congr_left
  intro h hmem
  have hm2 := (List.mem_filter.mp hmem).1
  rw [earnedOne_eq]
  rcases hall h hm2 with hs | hs <;> simp [passingStatus, hs]

/-- The selected payload list has length min P (max or P) whenever the sample
oracle honours its contract. -/
theorem selectPayloads_length (sample1 : List String → Nat → List String)
    (catalog : List (String × List String)) (s : ProbeSettings)
    (hs : ∀ (l : List String) k, k ≤ l.length → (sample1 l k).length = k) :
    (selectPayloads sample1 catalog s).length
      = min (combinePayloads catalog s.payload_categories).length
          (if s.max_attempts_per_field = 0
            then (combinePayloads catalog s.payload_categories).length
            else s.max_attempts_per_field) := by
  unfold selectPayloads
  by_cases hc : 0 < s.max_attempts_per_field ∧
      s.max_attempts_per_field < (combinePayloads catalog s.payload_categories).length
  · rw [if_pos hc, hs _ _ (Nat.le_of_lt hc.2)]
    have h0 : s.max_attempts_per_field ≠ 0 := Nat.pos_iff_ne_zero.mp hc.1
    rw [if_neg h0]
    omega
  · rw [if_neg hc]
    by_cases h0 : s.max_attempts_per_field = 0
    · rw [if_pos h0]; omega
    · rw [if_neg h0]
      have := Nat.pos_of_ne_zero h0
      omega

/-! ### Lemmas about the string primitives -/

theorem listLeads_mem {needle hay : List Char} (h : listLeads needle hay = true) :
    ∀ c ∈ needle, c ∈ hay := by
  induction needle generalizing hay with
  | nil => intro c hc; cases hc
  | cons a as ih =>
    cases hay with
    | nil => simp [listLeads] at h
    | cons b bs =>
      simp only [listLeads, Bool.and_eq_true, beq_iff_eq] at h
      intro c hc
      rcases List.mem_cons.mp hc with hca | hcas
      · exact List.mem_cons.mpr (Or.inl (hca.trans h.1))
      · exact List.mem_cons.mpr (Or.inr (ih h.2 c hcas))

theorem listHasSub_mem {needle hay : List Char} (h : listHasSub needle hay = true) :
    ∀ c ∈ needle, c ∈ hay := by
  induction hay with
  | nil =>
    intro c hc
    simp only [listHasSub, List.isEmpty_iff] at h
    subst h; cases hc
  | cons b bs ih =>
    simp only [listHasSub, Bool.or_eq_true] at h
    intro c hc
    rcases h with h | h
    · exact listLeads_mem h c hc
    · exact List.mem_cons.mpr (Or.inr (ih h c hc))

/-- The replaced character itself never survives a charReplace pass, provided
the replacement text does not reintroduce it. -/
theorem charReplace_self {c : Char} {rep : List Char} (h : c ∉ rep) :
    ∀ {s : List Char}, c ∉ charReplace c rep s := by
  intro s
  induction s with
  | nil => simp [charReplace]
  | cons x xs ih =>
    simp only [charReplace, List.mem_append]
    rintro (hx | hx)
    · split at hx
      · exact h hx
      · next hcond =>
        simp only [List.mem_singleton] at hx
        subst hx
        exact hcond (beq_self_eq_true c)
    · exact ih hx

/-- A character absent from both the replacement text and the input stays
absent from the charReplace output. -/
theorem charReplace_keep {c a : Char} {rep : List Char} (h1 : a ∉ rep) :
    ∀ {s : List Char}, a ∉ s → a ∉ charReplace c rep s := by
  intro s
  induction s with
  | nil => simp [charReplace]
  | cons x xs ih =>
    intro hs
    simp only [charReplace, List.mem_append]
    rintro (hx | hx)
    · split at hx
      · exact h1 hx
      · simp only [List.mem_singleton] at hx
        subst hx
        exact hs (List.mem_cons.mpr (Or.inl rfl))
    · exact ih (fun hm => hs (List.mem_cons.mpr (Or.inr hm))) hx

/-- No literal angle bracket survives escapeLtGt. -/
theorem escapeLtGt_no_angle (s : String) :
    '<' ∉ (escapeLtGt s).data ∧ '>' ∉ (escapeLtGt s).data := by
  constructor
  · exact charReplace_keep (by decide) (charReplace_self (by decide))
  · exact charReplace_self (by decide)

/-- A payload containing a literal angle bracket can never appear verbatim in
an HTML-entity-escaped page. -/
theorem hasSub_escape_false {payload : String} (s : String)
    (h : '<' ∈ payload.data ∨ '>' ∈ payload.data) :
    hasSub (escapeLtGt s) payload = false := by
  cases hfb : hasSub (escapeLtGt s) payload with
  | false => rfl
  | true =>
    exfalso
    have hsub : listHasSub payload.data (escapeLtGt s).data = true := hfb
    rcases h with hm | hm
    · exact (escapeLtGt_no_angle s).1 (listHasSub_mem hsub _ hm)
    · exact (escapeLtGt_no_angle s).2 (listHasSub_mem hsub _ hm)

/-- The cookie fold accumulates exactly the per-cookie points on top of any
starting score, leaving nothing depending on flag state. -/
theorem csrf_cookie_fold_score (cookies : List Cookie) (p : Protection) :
    (cookies.foldl cookieStep p).score = p.score + (cookies.map cookiePoints).sum := by
  induction cookies generalizing p with
  | nil => simp
  | cons c cs ih =>
    simp only [List.foldl_cons, List.map_cons, List.sum_cons]
    rw [ih]
    unfold cookieStep cookiePoints
    by_cases h1 : c.secure <;> by_cases h2 : c.httpOnly <;>
      by_cases h3 : (c.sameSite == some "Strict" || c.sameSite == some "Lax") = true <;>
      simp [h1, h2, h3] <;> omega

/-- The cookie loop never touches the has_csrf_token flag. -/
theorem csrf_cookie_fold_token (cookies : List Cookie) (p : Protection) :
    (cookies.foldl cookieStep p).has_csrf_token = p.has_csrf_token := by
  induction cookies generalizing p with
  | nil => simp
  | cons c cs ih =>
    simp only [List.foldl_cons]
    rw [ih]
    unfold cookieStep
    by_cases h1 : c.secure <;> by_cases h2 : c.httpOnly <;>
      by_cases h3 : (c.sameSite == some "Strict" || c.sameSite == some "Lax") = true <;>
      simp [h1, h2, h3]

/-- The protection score equals its closed per-cookie form. -/
theorem check_score_eq (form : FormDetails) (cookies : List Cookie)
    (refererPolicy : String) :
    (check_for_csrf_protection form cookies refererPolicy).score
      = csrfScoreClosed form cookies refererPolicy := by
  unfold check_for_csrf_protection csrfScoreClosed refererOk
  by_cases hr : (refererPolicy == "same-origin" || refererPolicy == "strict-origin"
      || refererPolicy == "strict-origin-when-cross-origin") = true <;>
    by_cases ht : form.has_csrf_token = true <;>
    simp [hr, ht, csrf_cookie_fold_score, csrf_cookie_fold_token]

/-- The level is computed from the score by the ≥4 / ≥2 thresholds. -/
theorem check_level_eq (form : FormDetails) (cookies : List Cookie)
    (refererPolicy : String) :
    (check_for_csrf_protection form cookies refererPolicy).level
      = (if (check_for_csrf_protection form cookies refererPolicy).score ≥ 4
          then "strong"
         else if (check_for_csrf_protection form cookies refererPolicy).score ≥ 2
          then "medium" else "weak") := by
  rfl

/-- Under the sample contract, the trial budget of a field list is the
number of selector-carrying fields times min P (max or P). -/
theorem fieldsTrialSum_eq (sample : Nat → List String → Nat → List String)
    (catalog : List (String × List String)) (s : ProbeSettings)
    (hs : ∀ j (l : List String) k, k ≤ l.length → (sample j l k).length = k) :
    ∀ (fields : List (String × ProbeField)) (i : Nat),
      fieldsTrialSum sample catalog s fields i
        = (fields.filter (fun f => f.2.selector.isSome)).length *
            min (combinePayloads catalog s.payload_categories).length
              (if s.max_attempts_per_field = 0
                then (combinePayloads catalog s.payload_categories).length
                else s.max_attempts_per_field) := by
  intro fields
  induction fields with
  | nil => intro i; simp [fieldsTrialSum]
  | cons f rest ih =>
    intro i
    unfold fieldsTrialSum
    rw [ih]
    cases hsel : f.2.selector with
    | none => simp [List.filter_cons, hsel]
    | some sel =>
      rw [selectPayloads_length (sample i) catalog s (hs i)]
      simp only [List.filter_cons, hsel, Option.isSome_some, if_true, List.length_cons]
      rw [Nat.succ_mul]
      exact Nat.add_comm _ _

/-! ## Claim theorems -/

/-- C8: detect_xss_reflection(html, payload) returns true exactly when the
payload occurs literally as a substring of html or one of the fixed
XSS_REFLECTION_PATTERNS matches html; the sanitized-payload branch can never
cause a false return (its guard needs the payload both present and absent in
html), so an HTML-entity-escaped reflection that still contains the generic
fragment alert(1) is reported as reflected. -/
theorem C8_detect_reflection_iff :
    (∀ html payload : String,
       detect_xss_reflection html payload
         = (hasSub html payload || xssPatternHit html)) ∧
    detect_xss_reflection (escapeLtGt "<script>alert(1)</script>")
      "<script>alert(1)</script>" = true ∧
    escapeLtGt "<script>alert(1)</script>" = "&lt;script&gt;alert(1)&lt;/script&gt;" := by
  refine ⟨?_, by decide, by decide⟩
  intro html payload
  unfold detect_xss_reflection
  by_cases hc : hasSub html payload = true <;> simp [hc]

/-- C9: whenever a CSRF-token field was detected, the protection score is at
least 3, the classification is medium or strong (never weak), and the test
never reports severity high. -/
theorem C9_csrf_token_never_high :
    ∀ (form : FormDetails) (cookies : List Cookie) (pol : String),
      form.has_csrf_token = true →
      3 ≤ (check_for_csrf_protection form cookies pol).score ∧
      (check_for_csrf_protection form cookies pol).level ≠ "weak" ∧
      (test_csrf_vulnerability form cookies pol).severity ≠ "high" := by
  intro form cookies pol ht
  have hsc : 3 ≤ (check_for_csrf_protection form cookies pol).score := by
    rw [check_score_eq]
    unfold csrfScoreClosed
    rw [ht, if_pos rfl]
    exact Nat.le_add_left 3 _
  have hlev : (check_for_csrf_protection form cookies pol).level ≠ "weak" := by
    rw [check_level_eq]
    by_cases h4 : (check_for_csrf_protection form cookies pol).score ≥ 4
    · rw [if_pos h4]; decide
    · rw [if_neg h4, if_pos (by omega)]; decide
  have hb : ((check_for_csrf_protection form cookies pol).level == "weak") = false :=
    beq_eq_false_iff_ne.mpr hlev
  refine ⟨hsc, hlev, ?_⟩
  rw [(test_csrf_fields form cookies pol).2, hb]
  simp only [Bool.false_eq_true, if_false]
  by_cases hm : ((check_for_csrf_protection form cookies pol).level == "medium") = true <;>
    simp [hm]

/-- C9 witness: a tokened POST form with no cookies and empty referrer
policy. -/
theorem C9_witness :
    formTok.has_csrf_token = true ∧
    (3 ≤ (check_for_csrf_protection formTok [] "").score ∧
     (check_for_csrf_protection formTok [] "").level ≠ "weak" ∧
     (test_csrf_vulnerability formTok [] "").severity ≠ "high") :=
  ⟨rfl, C9_csrf_token_never_high formTok [] "" rfl⟩

/-- C4 counterexample: with two Secure-only cookies and no other protection
the code accumulates +1 per cookie, reaching score 2 and classification
medium / severity medium, while the claim's any-cookie formula yields score 1
and hence classification weak / severity high. -/
theorem C4_counterexample :
    (check_for_csrf_protection formNoTok [cookieSec, cookieSec2] "").score = 2 ∧
    specCsrfProtectionScore formNoTok [cookieSec, cookieSec2] "" = 1 ∧
    (check_for_csrf_protection formNoTok [cookieSec, cookieSec2] "").level = "medium" ∧
    (test_csrf_vulnerability formNoTok [cookieSec, cookieSec2] "").severity = "medium" := by
  decide

/-- C4 (amended): the protection score sums, over every cookie separately,
+1 for Secure, +1 for HttpOnly and +2 for SameSite ∈ {Strict, Lax}, plus +1
for a strong referrer policy and +3 for a CSRF-token field; the
classification bands are as claimed: ≥4 strong (not vulnerable), ≥2 medium
(vulnerable, severity medium), else weak (vulnerable, severity high). -/
theorem C4_per_cookie_score_and_bands :
    ∀ (form : FormDetails) (cookies : List Cookie) (pol : String),
      (check_for_csrf_protection form cookies pol).score
        = (cookies.map cookiePoints).sum + (if refererOk pol then 1 else 0)
            + (if form.has_csrf_token then 3 else 0) ∧
      (4 ≤ (check_for_csrf_protection form cookies pol).score →
        (check_for_csrf_protection form cookies pol).level = "strong" ∧
        (test_csrf_vulnerability form cookies pol).vulnerable = false) ∧
      (2 ≤ (check_for_csrf_protection form cookies pol).score →
        (check_for_csrf_protection form cookies pol).score < 4 →
        (check_for_csrf_protection form cookies pol).level = "medium" ∧
        (test_csrf_vulnerability form cookies pol).vulnerable = true ∧
        (test_csrf_vulnerability form cookies pol).severity = "medium") ∧
      ((check_for_csrf_protection form cookies pol).score < 2 →
        (check_for_csrf_protection form cookies pol).level = "weak" ∧
        (test_csrf_vulnerability form cookies pol).vulnerable = true ∧
        (test_csrf_vulnerability form cookies pol).severity = "high") := by
  intro form cookies pol
  have hl := check_level_eq form cookies pol
  have hv := (test_csrf_fields form cookies pol).1
  have hsev := (test_csrf_fields form cookies pol).2
  refine ⟨(check_score_eq form cookies pol).trans rfl, ?_, ?_, ?_⟩
  · intro h4
    have hlev : (check_for_csrf_protection form cookies pol).level = "strong" := by
      rw [hl, if_pos h4]
    exact ⟨hlev, by rw [hv, hlev]; decide⟩
  · intro h2 h4
    have hlev : (check_for_csrf_protection form cookies pol).level = "medium" := by
      rw [hl, if_neg (by omega), if_pos h2]
    exact ⟨hlev, by rw [hv, hlev]; decide, by rw [hsev, hlev]; decide⟩
  · intro hlt
    have hlev : (check_for_csrf_protection form cookies pol).level = "weak" := by
      rw [hl, if_neg (by omega), if_neg (by omega)]
    exact ⟨hlev, by rw [hv, hlev]; decide, by rw [hsev, hlev]; decide⟩

/-- C4 witness: a fully hardened cookie plus a token reaches the strong
band. -/
theorem C4_witness :
    (check_for_csrf_protection formTok [cookieFull] "same-origin").score
      = ([cookieFull].map cookiePoints).sum + (if refererOk "same-origin" then 1 else 0)
          + (if formTok.has_csrf_token then 3 else 0) ∧
    (check_for_csrf_protection formTok [cookieFull] "same-origin").level = "strong" ∧
    (test_csrf_vulnerability formTok [cookieFull] "same-origin").vulnerable = false := by
  have h := C4_per_cookie_score_and_bands formTok [cookieFull] "same-origin"
  exact ⟨h.1, (h.2.1 (by decide)).1, (h.2.1 (by decide)).2⟩

/-- C7 counterexample: a page with a single GET form yields forms_tested = 1,
not 0: GET forms are counted before being skipped. -/
theorem C7_counterexample :
    (run_csrf_mode [] "" [formGet]).forms_tested = 1 ∧
    (run_csrf_mode [] "" [formGet]).vulnerabilities = [] ∧
    (run_csrf_mode [] "" [formGet]).success = true := by
  decide

/-- C7 (amended): forms_tested counts every form, GET forms included, but a
GET form is never tested and never contributes a vulnerability record, and a
page with zero forms yields a successful empty result without an error. -/
theorem C7_get_forms_counted_never_flagged :
    ∀ (cookies : List Cookie) (pol : String) (forms : List FormDetails),
      (csrfTestForms cookies pol forms).1 = forms.length ∧
      (csrfTestForms cookies pol forms).2
        = (forms.map (csrfVulnsOfForm cookies pol)).flatten ∧
      (∀ form : FormDetails, form.method = "get" →
        csrfVulnsOfForm cookies pol form = []) ∧
      run_csrf_mode cookies pol []
        = { forms_tested := 0, vulnerabilities := [], success := true,
            error := none, vulnerable := none } := by
  intro cookies pol forms
  have h := csrfTestForms_fold cookies pol forms (0, [])
  refine ⟨?_, ?_, ?_, rfl⟩
  · unfold csrfTestForms; rw [h]; simp
  · unfold csrfTestForms; rw [h]; simp
  · intro form hm
    unfold csrfVulnsOfForm
    simp [hm]

/-- C7 witness: a GET form plus a POST form -- both counted, only the POST
form can contribute records. -/
theorem C7_witness :
    (csrfTestForms [] "" [formGet, formNoTok]).1 = 2 ∧
    csrfVulnsOfForm [] "" formGet = [] := by
  have h := C7_get_forms_counted_never_flagged [] "" [formGet, formNoTok]
  exact ⟨h.1.trans rfl, h.2.2.1 formGet rfl⟩

/-- C6 counterexample: the catalog payload javascript:alert(1) contains no
angle bracket, so HTML-entity-escaping leaves it unchanged; a page that
HTML-entity-escapes its reflected content therefore still contains the raw
payload verbatim and the detector records a type=unescaped finding. -/
theorem C6_counterexample :
    ((XSS_PAYLOADS.lookup "basic").getD []).contains "javascript:alert(1)" = true ∧
    escapeLtGt "javascript:alert(1)" = "javascript:alert(1)" ∧
    countUnescaped (xssTrial
      (fun _ => some (none, escapeLtGt "reflected: javascript:alert(1)"))
      "http://example.test" "comment" "javascript:alert(1)"
      { total_tests := 0, xss_vulnerabilities := [] }) = 1 := by
  decide

/-- C6 (amended): a trial records a type=unescaped finding exactly when the
raw payload occurs verbatim in the returned page source; in particular a
verbatim unescaped reflection is always flagged, and a page that
HTML-entity-escapes its content produces no unescaped finding for any payload
containing an angle bracket (angle-free payloads survive escaping verbatim
and are still flagged, as the counterexample shows). -/
theorem C6_unescaped_iff_verbatim :
    (∀ (a : Option String) (src url fname payload : String) (st : XssState),
       countUnescaped (xssTrial (fun _ => some (a, src)) url fname payload st)
         = countUnescaped st + (if hasSub src payload then 1 else 0)) ∧
    (∀ (a : Option String) (s url fname payload : String) (st : XssState),
       ('<' ∈ payload.data ∨ '>' ∈ payload.data) →
       countUnescaped (xssTrial (fun _ => some (a, escapeLtGt s)) url fname payload st)
         = countUnescaped st) := by
  constructor
  · exact fun a src url f p st => xssTrial_unescaped_count a src url f p st
  · intro a s url f p st hang
    rw [xssTrial_unescaped_count, hasSub_escape_false s hang]
    simp

/-- C6 witness: a script payload reflected only in escaped form yields no
unescaped finding. -/
theorem C6_witness :
    countUnescaped (xssTrial
      (fun _ => some (none, escapeLtGt "x<script>alert(1)</script>y"))
      "http://example.test" "comment" "<script>alert(1)</script>"
      { total_tests := 0, xss_vulnerabilities := [] })
      = countUnescaped { total_tests := 0, xss_vulnerabilities := [] } :=
  C6_unescaped_iff_verbatim.2 none "x<script>alert(1)</script>y" "http://example.test"
    "comment" "<script>alert(1)</script>" { total_tests := 0, xss_vulnerabilities := [] }
    (Or.inl (by decide))

/-- C10: in both probers the early-exit check sits after a field's payload
loop: when test_all_fields is false and the field's finished loop has
recorded a finding, the loop result is exactly that field's completed payload
fold (every payload of the field was still attempted: the trial counter grew
by the full payload-list length) and all subsequent fields are skipped; when
test_all_fields is true, every selector-carrying field is tested in full
regardless of findings. -/
theorem C10_early_exit_after_field_completion :
    (∀ (env : Nat → Option String) (sample : Nat → List String → Nat → List String)
       (s : ProbeSettings) (url fname sel : String) (fcfg : ProbeField)
       (rest : List (String × ProbeField)) (i : Nat) (st : SqlState),
       s.test_all_fields = false → fcfg.selector = some sel →
       ((selectPayloads (sample i) SQL_INJECTION_PAYLOADS s).foldl
          (fun acc p => sqlTrial env url fname p acc) st).suspicious_responses ≠ [] →
       sqlRunFields env sample s url ((fname, fcfg) :: rest) i st
         = (selectPayloads (sample i) SQL_INJECTION_PAYLOADS s).foldl
             (fun acc p => sqlTrial env url fname p acc) st ∧
       ((selectPayloads (sample i) SQL_INJECTION_PAYLOADS s).foldl
          (fun acc p => sqlTrial env url fname p acc) st).total_tests
         = st.total_tests + (selectPayloads (sample i) SQL_INJECTION_PAYLOADS s).length) ∧
    (∀ (env : Nat → Option String) (sample : Nat → List String → Nat → List String)
       (s : ProbeSettings) (url : String) (fields : List (String × ProbeField))
       (i : Nat) (st : SqlState), s.test_all_fields = true →
       (sqlRunFields env sample s url fields i st).total_tests
         = st.total_tests + fieldsTrialSum sample SQL_INJECTION_PAYLOADS s fields i) ∧
    (∀ (env : Nat → Option (Option String × String))
       (sample : Nat → List String → Nat → List String)
       (s : ProbeSettings) (url fname sel : String) (fcfg : ProbeField)
       (rest : List (String × ProbeField)) (i : Nat) (st : XssState),
       s.test_all_fields = false → fcfg.selector = some sel →
       ((selectPayloads (sample i) XSS_PAYLOADS s).foldl
          (fun acc p => xssTrial env url fname p acc) st).xss_vulnerabilities ≠ [] →
       xssRunFields env sample s url ((fname, fcfg) :: rest) i st
         = (selectPayloads (sample i) XSS_PAYLOADS s).foldl
             (fun acc p => xssTrial env url fname p acc) st ∧
       ((selectPayloads (sample i) XSS_PAYLOADS s).foldl
          (fun acc p => xssTrial env url fname p acc) st).total_tests
         = st.total_tests + (selectPayloads (sample i) XSS_PAYLOADS s).length) ∧
    (∀ (env : Nat → Option (Option String × String))
       (sample : Nat → List String → Nat → List String)
       (s : ProbeSettings) (url : String) (fields : List (String × ProbeField))
       (i : Nat) (st : XssState), s.test_all_fields = true →
       (xssRunFields env sample s url fields i st).total_tests
         = st.total_tests + fieldsTrialSum sample XSS_PAYLOADS s fields i) := by
  refine ⟨?_, ?_, ?_, ?_⟩
  · intro env sample s url fname sel fcfg rest i st hall hsel hne
    refine ⟨?_, sql_payload_fold_total env url fname _ st⟩
    have hie : ((selectPayloads (sample i) SQL_INJECTION_PAYLOADS s).foldl
        (fun acc p => sqlTrial env url fname p acc) st).suspicious_responses.isEmpty
        = false := by
      cases hx : ((selectPayloads (sample i) SQL_INJECTION_PAYLOADS s).foldl
          (fun acc p => sqlTrial env url fname p acc) st).suspicious_responses.isEmpty
      · rfl
      · exact absurd (List.isEmpty_iff.mp hx) hne
    unfold sqlRunFields
    dsimp only
    rw [hsel]
    dsimp only
    rw [hall, hie]
    rfl
  · exact fun env sample s url fields i st hall =>
      sqlRunFields_total env sample s url hall fields i st
  · intro env sample s url fname sel fcfg rest i st hall hsel hne
    refine ⟨?_, xss_payload_fold_total env url fname _ st⟩
    have hie : ((selectPayloads (sample i) XSS_PAYLOADS s).foldl
        (fun acc p => xssTrial env url fname p acc) st).xss_vulnerabilities.isEmpty
        = false := by
      cases hx : ((selectPayloads (sample i) XSS_PAYLOADS s).foldl
          (fun acc p => xssTrial env url fname p acc) st).xss_vulnerabilities.isEmpty
      · rfl
      · exact absurd (List.isEmpty_iff.mp hx) hne
    unfold xssRunFields
    dsimp only
    rw [hsel]
    dsimp only
    rw [hall, hie]
    rfl
  · exact fun env sample s url fields i st hall =>
      xssRunFields_total env sample s url hall fields i st

/-- C10 witness: early exit with a SQL-error page and a reflecting XSS page,
full traversal with the default settings. -/
theorem C10_witness :
    (sqlRunFields envSqlError sampleTake sC10 "http://example.test"
        [("comment", fldComment), ("email", fldEmail)] 0
        { total_tests := 0, suspicious_responses := [] }
      = (selectPayloads (sampleTake 0) SQL_INJECTION_PAYLOADS sC10).foldl
          (fun acc p => sqlTrial envSqlError "http://example.test" "comment" p acc)
          { total_tests := 0, suspicious_responses := [] }) ∧
    ((selectPayloads (sampleTake 0) SQL_INJECTION_PAYLOADS sC10).foldl
        (fun acc p => sqlTrial envSqlError "http://example.test" "comment" p acc)
        { total_tests := 0, suspicious_responses := [] }).total_tests
      = 0 + (selectPayloads (sampleTake 0) SQL_INJECTION_PAYLOADS sC10).length ∧
    (sqlRunFields envBenign sampleTake cfgC3.settings "http://example.test"
        [("comment", fldComment)] 0
        { total_tests := 0, suspicious_responses := [] }).total_tests
      = 0 + fieldsTrialSum sampleTake SQL_INJECTION_PAYLOADS cfgC3.settings
          [("comment", fldComment)] 0 ∧
    (xssRunFields envXssHit sampleTake sC10 "http://example.test"
        [("comment", fldComment), ("email", fldEmail)] 0
        { total_tests := 0, xss_vulnerabilities := [] }
      = (selectPayloads (sampleTake 0) XSS_PAYLOADS sC10).foldl
          (fun acc p => xssTrial envXssHit "http://example.test" "comment" p acc)
          { total_tests := 0, xss_vulnerabilities := [] }) ∧
    (xssRunFields envXssQuiet sampleTake cfgC3.settings "http://example.test"
        [("comment", fldComment)] 0
        { total_tests := 0, xss_vulnerabilities := [] }).total_tests
      = 0 + fieldsTrialSum sampleTake XSS_PAYLOADS cfgC3.settings
          [("comment", fldComment)] 0 := by
  refine ⟨?_, ?_, ?_, ?_, ?_⟩
  · exact (C10_early_exit_after_field_completion.1 envSqlError sampleTake sC10
      "http://example.test" "comment" "#comment" fldComment [("email", fldEmail)] 0
      { total_tests := 0, suspicious_responses := [] } rfl rfl (by decide)).1
  · exact (C10_early_exit_after_field_completion.1 envSqlError sampleTake sC10
      "http://example.test" "comment" "#comment" fldComment [("email", fldEmail)] 0
      { total_tests := 0, suspicious_responses := [] } rfl rfl (by decide)).2
  · exact C10_early_exit_after_field_completion.2.1 envBenign sampleTake cfgC3.settings
      "http://example.test" [("comment", fldComment)] 0
      { total_tests := 0, suspicious_responses := [] } rfl
  · exact (C10_early_exit_after_field_completion.2.2.1 envXssHit sampleTake sC10
      "http://example.test" "comment" "#comment" fldComment [("email", fldEmail)] 0
      { total_tests := 0, xss_vulnerabilities := [] } rfl rfl (by decide)).1
  · exact C10_early_exit_after_field_completion.2.2.2 envXssQuiet sampleTake cfgC3.settings
      "http://example.test" [("comment", fldComment)] 0
      { total_tests := 0, xss_vulnerabilities := [] } rfl

/-- C3: the SQL prober performs F × min(P, max_attempts_per_field or P)
trials (F = fields carrying a selector, P = combined catalog size) when
test_all_fields keeps its default True; in the end-to-end scenario (one field
comment, categories ["basic"], max_attempts_per_field = 2) it performs
exactly 2 trials and, when no page source ever matches an error pattern,
records no finding -- but the function returns None, not the results dict
{total_tests, sql_vulnerabilities} the spec promises (its callers in
mode_comprehensive.py and security_report.py expect that dict). -/
theorem C3_trial_count_and_none_return :
    (∀ (env : Nat → Option String) (sample : Nat → List String → Nat → List String)
       (s : ProbeSettings) (url : String) (fields : List (String × ProbeField))
       (i : Nat) (st : SqlState),
       (∀ j (l : List String) k, k ≤ l.length → (sample j l k).length = k) →
       s.test_all_fields = true →
       (sqlRunFields env sample s url fields i st).total_tests
         = st.total_tests +
           (fields.filter (fun f => f.2.selector.isSome)).length *
             min (combinePayloads SQL_INJECTION_PAYLOADS s.payload_categories).length
               (if s.max_attempts_per_field = 0
                 then (combinePayloads SQL_INJECTION_PAYLOADS s.payload_categories).length
                 else s.max_attempts_per_field)) ∧
    (∀ (env : Nat → Option String) (sample : Nat → List String → Nat → List String),
       (∀ j (l : List String) k, k ≤ l.length → (sample j l k).length = k) →
       (∀ n src, env n = some src → firstErrorPattern (pyLower src) = none) →
       (run_sql_injection_mode env sample cfgC3).1.total_tests = 2 ∧
       (run_sql_injection_mode env sample cfgC3).1.suspicious_responses = [] ∧
       (run_sql_injection_mode env sample cfgC3).2 = none) := by
  constructor
  · intro env sample s url fields i st hs hall
    rw [sqlRunFields_total env sample s url hall fields i st,
        fieldsTrialSum_eq sample SQL_INJECTION_PAYLOADS s hs fields i]
  · intro env sample hs henv
    have hrun : run_sql_injection_mode env sample cfgC3
        = (sqlRunFields env sample cfgC3.settings "http://example.test"
            [("comment", fldComment)] 0
            { total_tests := 0, suspicious_responses := [] }, none) := rfl
    have hfold : sqlRunFields env sample cfgC3.settings "http://example.test"
        [("comment", fldComment)] 0 { total_tests := 0, suspicious_responses := [] }
        = (selectPayloads (sample 0) SQL_INJECTION_PAYLOADS cfgC3.settings).foldl
            (fun acc p => sqlTrial env "http://example.test" "comment" p acc)
            { total_tests := 0, suspicious_responses := [] } := rfl
    have hlen : (selectPayloads (sample 0) SQL_INJECTION_PAYLOADS cfgC3.settings).length
        = 2 := by
      rw [selectPayloads_length (sample 0) SQL_INJECTION_PAYLOADS cfgC3.settings (hs 0)]
      decide
    refine ⟨?_, ?_, ?_⟩
    · rw [hrun]
      dsimp only
      rw [hfold, sql_payload_fold_total, hlen]
    · rw [hrun]
      dsimp only
      rw [hfold, sql_payload_fold_nofind env "http://example.test" "comment" henv]
    · rw [hrun]

/-- C3 witness: a benign page and a take-first sampler. -/
theorem C3_witness :
    (run_sql_injection_mode envBenign sampleTake cfgC3).1.total_tests = 2 ∧
    (run_sql_injection_mode envBenign sampleTake cfgC3).1.suspicious_responses = [] ∧
    (run_sql_injection_mode envBenign sampleTake cfgC3).2 = none :=
  C3_trial_count_and_none_return.2 envBenign sampleTake
    (fun j l k hk => by simp only [sampleTake, List.length_take]; omega)
    (fun n src hsrc => by
      simp only [envBenign] at hsrc
      injection hsrc with h
      subst h
      decide)

/-- C1: CSRF findings never reach the overall score: run_csrf_mode records
its findings under the key vulnerabilities, while calculate_security_score
reads csrf_vulnerabilities, a key no CSRF result ever carries, so the score
stays 100 whatever the CSRF analyzer found -- including a recorded
severity-high vulnerability, which the claim (and spec) say must deduct 10
points. -/
theorem C1_csrf_findings_never_scored :
    (∀ (url pol : String) (cookies : List Cookie) (forms : List FormDetails),
       calculate_security_score (JVal.jdict
         [("csrf_results", csrfResultsToJson url (run_csrf_mode cookies pol forms))])
         = some 100) ∧
    ((run_csrf_mode [] "" [formNoTok]).vulnerabilities.map (fun v => v.severity))
      = ["high"] ∧
    calculate_security_score (JVal.jdict
      [("csrf_results", csrfResultsToJson "http://example.test"
          (run_csrf_mode [] "" [formNoTok]))]) = some 100 := by
  refine ⟨?_, by decide, by decide⟩
  intro url pol cookies forms
  unfold run_csrf_mode
  by_cases hf : forms.isEmpty = true
  · rw [if_pos hf]
    rfl
  · rw [if_neg hf]
    rfl

/-- C2: with all four categories selected, each category's slot holds its own
outcome (the error dict on a raised exception), one category's failure leaves
the other slots untouched, and when all four categories error the score is
still computed and equals 100, inside [0, 100]. -/
theorem C2_independent_categories_and_vacuous_100 :
    (∀ out : ProbeOutcomes,
       (buildComprehensive defaultTests out).lookup "sql_injection_results"
         = some (errSlot out.sql) ∧
       (buildComprehensive defaultTests out).lookup "xss_results"
         = some (errSlot out.xss) ∧
       (buildComprehensive defaultTests out).lookup "csrf_results"
         = some (errSlot out.csrf) ∧
       (buildComprehensive defaultTests out).lookup "headers_results"
         = some (errSlot out.headers)) ∧
    (∀ (out : ProbeOutcomes) (e : String),
       (buildComprehensive defaultTests
           { out with sql := Except.error e }).lookup "csrf_results"
         = (buildComprehensive defaultTests out).lookup "csrf_results" ∧
       (buildComprehensive defaultTests
           { out with sql := Except.error e }).lookup "headers_results"
         = (buildComprehensive defaultTests out).lookup "headers_results") ∧
    (∀ e1 e2 e3 e4 : String,
       comprehensiveScore defaultTests
         { sql := Except.error e1, xss := Except.error e2,
           csrf := Except.error e3, headers := Except.error e4 } = 100 ∧
       0 ≤ comprehensiveScore defaultTests
         { sql := Except.error e1, xss := Except.error e2,
           csrf := Except.error e3, headers := Except.error e4 } ∧
       comprehensiveScore defaultTests
         { sql := Except.error e1, xss := Except.error e2,
           csrf := Except.error e3, headers := Except.error e4 } ≤ 100) := by
  refine ⟨?_, ?_, ?_⟩
  · intro out
    exact ⟨rfl, rfl, rfl, rfl⟩
  · intro out e
    exact ⟨rfl, rfl⟩
  · intro e1 e2 e3 e4
    have h : comprehensiveScore defaultTests
        { sql := Except.error e1, xss := Except.error e2,
          csrf := Except.error e3, headers := Except.error e4 } = 100 := rfl
    rw [h]
    exact ⟨rfl, by omega, by omega⟩

/-- C5: the header security score is the floor of earned over total weight
times 100 and never exceeds 100; a header earns its full catalog weight
exactly when its status is present, strong or moderate; an all-passing
header set with a passing HTTPS redirect scores exactly 100; and the rating
bands are ≥90 excellent, ≥75 good, ≥50 fair, else poor. -/
theorem C5_headers_score_bounds_and_bands :
    (∀ (headers : List (String × String)) (redirect : String),
       headersScore headers redirect ≤ 100) ∧
    (∀ h : HeaderResult,
       earnedOne h
         = if passingStatus h.status then headerWeight (catalogSeverity h.name) else 0) ∧
    (∀ headers : List (String × String),
       (∀ r ∈ evaluate_security_headers headers,
         r.status = "present" ∨ r.status = "strong") →
       headersScore headers "passed" = 100) ∧
    (∀ (headers : List (String × String)) (redirect : String),
       (90 ≤ headersScore headers redirect →
         securityRating (headersScore headers redirect) = "excellent") ∧
       (75 ≤ headersScore headers redirect → headersScore headers redirect < 90 →
         securityRating (headersScore headers redirect) = "good") ∧
       (50 ≤ headersScore headers redirect → headersScore headers redirect < 75 →
         securityRating (headersScore headers redirect) = "fair") ∧
       (headersScore headers redirect < 50 →
         securityRating (headersScore headers redirect) = "poor")) := by
  refine ⟨headersScore_le_100, earnedOne_eq, ?_, ?_⟩
  · intro headers hall
    unfold headersScore
    dsimp only
    rw [earned_eq_total_of_passing headers hall]
    simp only [show (("passed" : String) == "passed") = true from rfl, if_true]
    rw [if_pos (by omega : 0 < totalWeight (evaluate_security_headers headers) + 2)]
    exact Nat.mul_div_cancel_left 100 (by omega)
  · intro headers redirect
    unfold securityRating
    refine ⟨?_, ?_, ?_, ?_⟩
    · intro h1; rw [if_pos h1]
    · intro h1 h2; rw [if_neg (by omega), if_pos h1]
    · intro h1 h2; rw [if_neg (by omega), if_neg (by omega), if_pos h1]
    · intro h1; rw [if_neg (by omega), if_neg (by omega), if_neg (by omega)]

/-- C5 witness: a response carrying every catalog header with a passing value
and a passing redirect scores 100 and rates excellent. -/
theorem C5_witness :
    headersScore hs100 "passed" = 100 ∧
    securityRating (headersScore hs100 "passed") = "excellent" :=
  ⟨C5_headers_score_bounds_and_bands.2.2.1 hs100 (by decide),
   (C5_headers_score_bounds_and_bands.2.2.2 hs100 "passed").1 (by decide)⟩

end FormMonkey
